import Mathlib

/-!
Verification of the OpsPilot analytical pipeline (graph builder, bottleneck
detector, risk forecaster, recommendation engine) against its specification.

The definitions below are a shallow embedding of the Python sources
(`graph_builder.py`, `detector.py`, `forecaster.py`, `recommender.py`):
Python floats are modelled as rationals, dates as integer day numbers
(`none` covers both an absent and an unparseable date, which the source
treats identically), and "now" is an explicit `today` parameter.  Python
dicts keyed by `task_id` are modelled with last-write-wins association
lookups, matching dict-comprehension semantics.  Reason/rationale strings
are reproduced, with Python float formatting (`:.1f` etc.) rendered by a
fixed-point rational formatter.
-/

namespace OpsPilot

/-- A validated task record, the canonical input row (spec section 3).
`start_date`/`due_date` are day numbers of a successfully parsed date;
`none` stands for an absent or unparseable date (both are skipped
identically everywhere in the source). -/
structure TaskRecord where
  task_id : String
  title : String
  owner : String
  status : String
  priority : String
  effort : Int
  start_date : Option Int := none
  due_date : Option Int := none
  dependency_ids : List String := []
  deriving Repr, DecidableEq

/-- The settings consumed by the core formulas (`due_soon_days`,
`aging_threshold`; `owner_load_threshold` is UI-only and never read by the
scoring code). -/
structure Settings where
  due_soon_days : Int := 7
  aging_threshold : Int := 5
  deriving Repr, DecidableEq

/-- Directed dependency graph: nodes are task ids (insertion order kept,
duplicates merged as `networkx.add_node` does), an edge (a, b) means a is a
prerequisite of b.  Edges are deduplicated as repeated `add_edge` is
idempotent. -/
structure DiGraph where
  nodes : List String
  edges : List (String × String)
  deriving Repr, DecidableEq

/-- Keys of a task-id keyed dict in insertion order: first occurrence of
each id. -/
def firstOccurrences (seen : List String) : List String → List String
  | [] => []
  | a :: l =>
    if a ∈ seen then firstOccurrences seen l
    else a :: firstOccurrences (a :: seen) l

/-- Models `task_lookup[tid]` with dict semantics: the last row carrying `tid`. -/
def taskLookup (rows : List TaskRecord) (tid : String) : Option TaskRecord :=
  (rows.filter (fun r => r.task_id = tid)).getLast?

/-- Models `task_lookup.values()`: one record per distinct task id, in first-key
insertion order, each the last row with that id. -/
def taskLookupValues (rows : List TaskRecord) : List TaskRecord :=
  (firstOccurrences [] (rows.map (fun r => r.task_id))).filterMap (taskLookup rows)

/-- Append an edge unless already present (`add_edge` idempotence). -/
def addEdge (edges : List (String × String)) (e : String × String) :
    List (String × String) :=
  if e ∈ edges then edges else edges ++ [e]

/-- Models `GraphBuilder.build_graph`: one node per task, then for every row an
edge dep -> task for each dependency id present among the nodes (dangling
ids silently dropped). -/
def build_graph (rows : List TaskRecord) : DiGraph :=
  let nodes := firstOccurrences [] (rows.map (fun r => r.task_id))
  let edges := rows.foldl
    (fun acc row =>
      row.dependency_ids.foldl
        (fun acc2 dep =>
          if dep ∈ nodes then addEdge acc2 (dep, row.task_id) else acc2)
        acc)
    []
  ⟨nodes, edges⟩

/-- Models `graph.predecessors(v)`. -/
def predecessors (g : DiGraph) (v : String) : List String :=
  (g.edges.filter (fun e => e.2 = v)).map (fun e => e.1)

/-- Models `graph.successors(v)`. -/
def successors (g : DiGraph) (v : String) : List String :=
  (g.edges.filter (fun e => e.1 = v)).map (fun e => e.2)

/-- Models `graph.in_degree(v)` (edges are deduplicated, so this is the number of
distinct predecessors). -/
def inDegree (g : DiGraph) (v : String) : Int :=
  ((g.edges.filter (fun e => e.2 = v)).length : Int)

/-- Models `graph.out_degree(v)`. -/
def outDegree (g : DiGraph) (v : String) : Int :=
  ((g.edges.filter (fun e => e.1 = v)).length : Int)

/-- Number of directed walks of length `k` from `s` to `t`. -/
def numWalks (g : DiGraph) : Nat → String → String → Nat
  | 0, s, t => if s = t then 1 else 0
  | k + 1, s, t =>
    (g.edges.filter (fun e => e.1 = s)).foldl
      (fun acc e => acc + numWalks g k e.2 t) 0

/-- Shortest-path distance from `s` to `t` (a shortest path has at most
`|nodes| - 1` edges, so scanning lengths `0 .. |nodes| - 1` is complete). -/
def distOpt (g : DiGraph) (s t : String) : Option Nat :=
  (List.range g.nodes.length).find? (fun k => 0 < numWalks g k s t)

/-- Number of shortest paths from `s` to `t` (walks of minimal length are
exactly the shortest paths). -/
def sigmaPaths (g : DiGraph) (s t : String) : Nat :=
  match distOpt g s t with
  | some d => numWalks g d s t
  | none => 0

/-- Number of shortest `s`-`t` paths passing through `v`. -/
def sigmaThrough (g : DiGraph) (s v t : String) : Nat :=
  match distOpt g s v, distOpt g v t, distOpt g s t with
  | some d1, some d2, some d =>
    if d1 + d2 = d then numWalks g d1 s v * numWalks g d2 v t else 0
  | _, _, _ => 0

/-- Unnormalized betweenness: sum over ordered pairs (s, t) with
s, t, v pairwise distinct of the fraction of shortest s-t paths through
v (the standard shortest-path definition computed by
`nx.betweenness_centrality`). -/
def betweennessRaw (g : DiGraph) (v : String) : ℚ :=
  g.nodes.foldl
    (fun acc s =>
      g.nodes.foldl
        (fun acc2 t =>
          if s ≠ t ∧ s ≠ v ∧ t ≠ v ∧ 0 < sigmaPaths g s t then
            acc2 + (sigmaThrough g s v t : ℚ) / (sigmaPaths g s t : ℚ)
          else acc2)
        acc)
    0

/-- Models `nx.betweenness_centrality` value for `v`: for a directed graph with
`n > 2` nodes the raw value is rescaled by `1 / ((n-1) * (n-2))`;
for `n ≤ 2` no rescaling is applied (the raw value is 0 anyway). -/
def betweennessValue (g : DiGraph) (v : String) : ℚ :=
  let n := g.nodes.length
  if 2 < n then betweennessRaw g v / (((n : ℚ) - 1) * ((n : ℚ) - 2))
  else betweennessRaw g v

/-- The betweenness dict, in node insertion order. -/
def betweennessMap (g : DiGraph) : List (String × ℚ) :=
  g.nodes.map (fun v => (v, betweennessValue g v))

/-- There is a directed path of at least one edge from `u` to `v`
(a shortest witness has at most `|nodes|` edges). -/
def reachableB (g : DiGraph) (u v : String) : Bool :=
  (List.range g.nodes.length).any (fun k => 0 < numWalks g (k + 1) u v)

/-- Models `nx.ancestors(g, v)`: every node other than `v` with a path to `v`.
The source only ever counts or filters this set, so listing it in node
order is observationally faithful. -/
def ancestors (g : DiGraph) (v : String) : List String :=
  g.nodes.filter (fun u => u ≠ v ∧ reachableB g u v)

/-- Mutual reachability (same strongly connected component). -/
def mutualReach (g : DiGraph) (u v : String) : Bool :=
  u = v ∨ (reachableB g u v ∧ reachableB g v u)

/-- The strongly connected component of `v`, members in node order. -/
def sccOf (g : DiGraph) (v : String) : List String :=
  g.nodes.filter (fun u => mutualReach g u v)

/-- Models `nx.strongly_connected_components`: each component is a SET of
task ids, represented canonically here as the list of its members in node
insertion order (one list per component, placed at its first member's
position).  The unspecified order in which Python later enumerates such a
set (`list(component)`) is NOT fixed here - it is the explicit `enum`
parameter of `detect_circular_dependencies_enum`. -/
def stronglyConnectedComponents (g : DiGraph) : List (List String) :=
  g.nodes.filterMap (fun v =>
    let c := sccOf g v
    if c.head? = some v then some c else none)

/-- Left-pad a natural number with zeros to `d` digits. -/
def padNat (n : Nat) (d : Nat) : String :=
  let s := toString n
  String.mk (List.replicate (d - s.length) (Char.ofNat 48)) ++ s

/-- Python fixed-point formatting (`:.df`): round half to even at `d`
decimal places.  (The source formats binary floats; on the exact decimal
values appearing in this development the two agree.) -/
def ratFixed (q : ℚ) (d : Nat) : String :=
  let scaled : ℚ := q * (10 : ℚ) ^ d
  let fl : Int := ⌊scaled⌋
  let frac : ℚ := scaled - (fl : ℚ)
  let n : Int :=
    if (1 : ℚ) / 2 < frac then fl + 1
    else if frac < (1 : ℚ) / 2 then fl
    else if fl % 2 = 0 then fl else fl + 1
  let sign := if n < 0 then "-" else ""
  let m := n.natAbs
  if d = 0 then sign ++ toString m
  else sign ++ toString (m / 10 ^ d) ++ "." ++ padNat (m % 10 ^ d) d

/-- Maximum of a list of rationals (callers guard non-emptiness, matching
the Python `max(...) if xs else _` idiom; 0 on the unreachable empty case). -/
def listMaxQ : List ℚ → ℚ
  | [] => 0
  | x :: xs => xs.foldl max x

/-- Maximum of a list of integers (same guard convention). -/
def listMaxI : List Int → Int
  | [] => 0
  | x :: xs => xs.foldl max x

/-- Sum of a list of rationals. -/
def listSumQ (l : List ℚ) : ℚ := l.foldl (· + ·) 0

/-- Per-owner counters accumulated by
`GraphBuilder._compute_owner_load_metrics`. -/
structure OwnerStats where
  total_tasks : Int := 0
  in_progress : Int := 0
  blocked : Int := 0
  high_priority : Int := 0
  high_effort : Int := 0
  due_soon : Int := 0
  overdue : Int := 0
  deriving Repr, DecidableEq

/-- One entry of the `aging_tasks` metric list. -/
structure AgingTask where
  task_id : String
  title : String
  owner : String
  days_in_progress : Int
  priority : String
  effort : Int
  deriving Repr, DecidableEq

/-- The metrics bundle fields consumed by the detector, forecaster and
recommender.  The empty record models the empty dict returned for an empty
graph: every downstream read goes through `.get(..., default)`, for which
an absent group and an empty group are indistinguishable.  (Groups read by
no downstream scoring code - `basic`, pagerank, degree centralities,
depth/cycle-time aggregates - are not carried.) -/
structure Metrics where
  betweenness : List (String × ℚ) := []
  owner_stats : List (String × OwnerStats) := []
  load_scores : List (String × ℚ) := []
  aging_tasks : List AgingTask := []
  aging_threshold : Int := 5
  critical_paths : List (String × ℚ) := []
  fan_in : List (String × Int) := []
  fan_out : List (String × Int) := []
  deriving Repr, DecidableEq

/-- Update an owner-keyed association list in place (insertion order kept,
as for a Python `defaultdict`). -/
def updateAssoc (f : OwnerStats → OwnerStats) (owner : String) :
    List (String × OwnerStats) → List (String × OwnerStats)
  | [] => [(owner, f {})]
  | (o, s) :: rest =>
    if o = owner then (o, f s) :: rest else (o, s) :: updateAssoc f owner rest

/-- Association-list lookup (dict `.get`). -/
def lookupAssoc {β : Type} (l : List (String × β)) (k : String) : Option β :=
  (l.find? (fun p => p.1 = k)).map (fun p => p.2)

/-- The per-row counter updates of `_compute_owner_load_metrics`. -/
def ownerStatUpdate (settings : Settings) (today : Int) (row : TaskRecord)
    (s : OwnerStats) : OwnerStats :=
  let s := { s with total_tasks := s.total_tasks + 1 }
  let s :=
    if row.status = "in_progress" then { s with in_progress := s.in_progress + 1 }
    else if row.status = "blocked" then { s with blocked := s.blocked + 1 }
    else s
  let s :=
    if row.priority = "high" then { s with high_priority := s.high_priority + 1 }
    else s
  let s := if 4 ≤ row.effort then { s with high_effort := s.high_effort + 1 } else s
  match row.due_date with
  | none => s
  | some d =>
    let days_until_due := d - today
    if days_until_due ≤ settings.due_soon_days ∧ 0 ≤ days_until_due then
      { s with due_soon := s.due_soon + 1 }
    else if days_until_due < 0 then { s with overdue := s.overdue + 1 }
    else s

/-- Models `owner_stats` after folding all rows. -/
def computeOwnerStats (rows : List TaskRecord) (settings : Settings)
    (today : Int) : List (String × OwnerStats) :=
  rows.foldl
    (fun acc row => updateAssoc (ownerStatUpdate settings today row) row.owner acc)
    []

/-- The weighted per-owner load score. -/
def loadScoreOf (s : OwnerStats) : ℚ :=
  (s.in_progress : ℚ) * 2 + (s.blocked : ℚ) * (3 / 2)
    + (s.high_priority : ℚ) * (3 / 2) + (s.high_effort : ℚ) * (6 / 5)
    + (s.due_soon : ℚ) * 1 + (s.overdue : ℚ) * 2

/-- Models `load_scores`, in owner insertion order. -/
def computeLoadScores (stats : List (String × OwnerStats)) : List (String × ℚ) :=
  stats.map (fun p => (p.1, loadScoreOf p.2))

/-- Models `_compute_aging_metrics`: rows that are `in_progress` with a parseable
start date and more than `aging_threshold` days elapsed. -/
def computeAgingTasks (rows : List TaskRecord) (settings : Settings)
    (today : Int) : List AgingTask :=
  rows.filterMap (fun row =>
    match row.start_date with
    | none => none
    | some sd =>
      if row.status = "in_progress" then
        let days := today - sd
        if settings.aging_threshold < days then
          some ⟨row.task_id, row.title, row.owner, days, row.priority, row.effort⟩
        else none
      else none)

/-- Mathlib insertion sort is a stable sort, hence extensionally equal to
Python `list.sort(key=…, reverse=True)` for the descending-by-key relation
below (ties keep list order). -/
def sortByKeyDescQ {α : Type} (key : α → ℚ) (l : List α) : List α :=
  l.insertionSort (fun a b => key b ≤ key a)

/-- Models `critical_paths`: betweenness entries above 0.1, stably sorted
descending by value, top 5. -/
def computeCriticalPaths (g : DiGraph) : List (String × ℚ) :=
  let high := (betweennessMap g).filter (fun p => (1 : ℚ) / 10 < p.2)
  (sortByKeyDescQ (fun p => p.2) high).take 5

/-- Models `fan_in` per node, in node order. -/
def computeFanIn (g : DiGraph) : List (String × Int) :=
  g.nodes.map (fun v => (v, inDegree g v))

/-- Models `fan_out` per node, in node order. -/
def computeFanOut (g : DiGraph) : List (String × Int) :=
  g.nodes.map (fun v => (v, outDegree g v))

/-- Models `GraphBuilder.compute_metrics`: empty bundle for an empty graph,
otherwise all groups (restricted to the downstream-consumed fields). -/
def compute_metrics (g : DiGraph) (rows : List TaskRecord)
    (settings : Settings) (today : Int) : Metrics :=
  if g.nodes.length = 0 then {}
  else
    let stats := computeOwnerStats rows settings today
    { betweenness := betweennessMap g
      owner_stats := stats
      load_scores := computeLoadScores stats
      aging_tasks := computeAgingTasks rows settings today
      aging_threshold := settings.aging_threshold
      critical_paths := computeCriticalPaths g
      fan_in := computeFanIn g
      fan_out := computeFanOut g }

/-- The `details` fields of a bottleneck that downstream code (the
recommendation engine) actually reads, with the defaults its
`.get(…, default)` calls supply. -/
structure BottleneckDetails where
  days_in_progress : Int := 0
  fan_in_count : Int := 0
  cycle : List String := []
  deriving Repr, DecidableEq

/-- A bottleneck record emitted by the detector. -/
structure Bottleneck where
  task_id : String
  title : String
  owner : String
  btype : String
  score : ℚ
  reason : String
  details : BottleneckDetails := {}
  deriving Repr, DecidableEq

/-- Models `{'high': 1.5, 'med': 1.0, 'low': 0.7}.get(p, 1.0)`. -/
def priority_weight (p : String) : ℚ :=
  if p = "high" then 3 / 2 else if p = "med" then 1
  else if p = "low" then 7 / 10 else 1

/-- Models `{'in_progress': 1.5, 'blocked': 1.2, 'todo': 1.0, 'done': 0.1}.get(s, 1.0)`. -/
def status_weight (s : String) : ℚ :=
  if s = "in_progress" then 3 / 2 else if s = "blocked" then 6 / 5
  else if s = "todo" then 1 else if s = "done" then 1 / 10 else 1

/-- Models `BottleneckDetector._detect_centrality_bottlenecks`. -/
def detect_centrality_bottlenecks (rows : List TaskRecord) (m : Metrics) :
    List Bottleneck :=
  let betweenness := m.betweenness
  if betweenness = [] then []
  else
    let max_betweenness := listMaxQ (betweenness.map (fun p => p.2))
    let threshold := max_betweenness * (7 / 10)
    betweenness.filterMap (fun p =>
      let task_id := p.1
      let score := p.2
      match taskLookup rows task_id with
      | none => none
      | some task =>
        if threshold ≤ score then
          let normalized_score := if 0 < max_betweenness then score / max_betweenness else 0
          some { task_id := task_id
                 title := task.title
                 owner := task.owner
                 btype := "high_betweenness"
                 score := normalized_score
                 reason := "High betweenness centrality (" ++ ratFixed score 3
                   ++ ") - many paths flow through this task" }
        else none)

/-- Models `BottleneckDetector._calculate_task_overload_score`. -/
def calculate_task_overload_score (task : TaskRecord) (load_score max_load : ℚ) : ℚ :=
  let base_score := if 0 < max_load then load_score / max_load else 0
  let task_weight := priority_weight task.priority * ((task.effort : ℚ) / 5)
    * status_weight task.status
  min (base_score * task_weight) 1

/-- Models `BottleneckDetector._detect_owner_overload_bottlenecks`. -/
def detect_owner_overload_bottlenecks (rows : List TaskRecord) (m : Metrics) :
    List Bottleneck :=
  let load_scores := m.load_scores
  if load_scores = [] then []
  else
    let values := load_scores.map (fun p => p.2)
    let max_load := listMaxQ values
    let avg_load := listSumQ values / (load_scores.length : ℚ)
    let threshold := max (avg_load * (3 / 2)) (max_load * (7 / 10))
    load_scores.flatMap (fun p =>
      let owner := p.1
      let load_score := p.2
      if threshold ≤ load_score then
        let owner_tasks := (taskLookupValues rows).filter (fun t => t.owner = owner)
        owner_tasks.filterMap (fun task =>
          let task_score := calculate_task_overload_score task load_score max_load
          if 3 / 10 < task_score then
            some { task_id := task.task_id
                   title := task.title
                   owner := owner
                   btype := "overloaded_owner"
                   score := task_score
                   reason := "Owner " ++ owner ++ " is overloaded (load score: "
                     ++ ratFixed load_score 2 ++ ")" }
          else none)
      else [])

/-- Models `max(t['days_in_progress'] for t in aging_tasks) if aging_tasks else 1`. -/
def maxAgingDays (ats : List AgingTask) : Int :=
  if ats = [] then 1 else listMaxI (ats.map (fun a => a.days_in_progress))

/-- Models `BottleneckDetector._detect_aging_bottlenecks`.  Note the final score
is not capped after the multiplication. -/
def detect_aging_bottlenecks (m : Metrics) : List Bottleneck :=
  let aging_tasks := m.aging_tasks
  if aging_tasks = [] then []
  else
    let max_days := maxAgingDays aging_tasks
    aging_tasks.map (fun a =>
      let aging_score := min ((a.days_in_progress : ℚ) / (max_days : ℚ)) 1
      let final_score := aging_score * priority_weight a.priority * ((a.effort : ℚ) / 5)
      { task_id := a.task_id
        title := a.title
        owner := a.owner
        btype := "aging_task"
        score := final_score
        reason := "Task stuck in progress for " ++ toString a.days_in_progress
          ++ " days"
        details := { days_in_progress := a.days_in_progress } })

/-- Models `BottleneckDetector._detect_dependency_bottlenecks`. -/
def detect_dependency_bottlenecks (rows : List TaskRecord) (m : Metrics) :
    List Bottleneck :=
  if m.fan_in = [] ∨ m.fan_out = [] then []
  else
    let max_fan_in := listMaxI (m.fan_in.map (fun p => p.2))
    let threshold : ℚ := max 2 ((max_fan_in : ℚ) * (3 / 5))
    m.fan_in.filterMap (fun p =>
      let task_id := p.1
      let fan_in_count : Int := p.2
      match taskLookup rows task_id with
      | none => none
      | some task =>
        if threshold ≤ (fan_in_count : ℚ) then
          let chokepoint_score :=
            if 0 < max_fan_in then (fan_in_count : ℚ) / (max_fan_in : ℚ) else 0
          some { task_id := task_id
                 title := task.title
                 owner := task.owner
                 btype := "dependency_chokepoint"
                 score := chokepoint_score
                 reason := "High dependency fan-in (" ++ toString fan_in_count
                   ++ " dependencies) creates chokepoint"
                 details := { fan_in_count := fan_in_count } }
        else none)

/-- Models `BottleneckDetector._detect_critical_path_bottlenecks`. -/
def detect_critical_path_bottlenecks (rows : List TaskRecord) (m : Metrics) :
    List Bottleneck :=
  if m.critical_paths = [] then []
  else
    (m.critical_paths.take 5).filterMap (fun p =>
      match taskLookup rows p.1 with
      | none => none
      | some task =>
        some { task_id := p.1
               title := task.title
               owner := task.owner
               btype := "critical_path"
               score := p.2
               reason := "Task is on critical path (betweenness: "
                 ++ ratFixed p.2 3 ++ ")" })

/-- Models `BottleneckDetector._detect_circular_dependencies`: every member of
every strongly connected component of size > 1, fixed score 0.8, the
reason naming the whole component.  This is the node-insertion-order
refinement (`enum = id`) of `detect_circular_dependencies_enum`; it is
used only by claims whose properties do not depend on the member order.
For claims about the member order itself, use the order-abstract
`detect_circular_dependencies_enum`. -/
def detect_circular_dependencies (g : DiGraph) (rows : List TaskRecord) :
    List Bottleneck :=
  let circular_deps := (stronglyConnectedComponents g).filter (fun c => 1 < c.length)
  circular_deps.flatMap (fun cycle =>
    cycle.filterMap (fun task_id =>
      match taskLookup rows task_id with
      | none => none
      | some task =>
        some { task_id := task_id
               title := task.title
               owner := task.owner
               btype := "circular_dependency"
               score := 4 / 5
               reason := "Task is part of circular dependency chain: "
                 ++ String.intercalate " -> " cycle
               details := { cycle := cycle } }))

/-- Models `BottleneckDetector.detect_bottlenecks`: the six sub-detectors
concatenated, then a stable descending sort by score. -/
def detect_bottlenecks (g : DiGraph) (rows : List TaskRecord) (m : Metrics)
    (_settings : Settings) : List Bottleneck :=
  if g.nodes.length = 0 then []
  else
    sortByKeyDescQ (fun b => b.score)
      (detect_centrality_bottlenecks rows m
        ++ detect_owner_overload_bottlenecks rows m
        ++ detect_aging_bottlenecks m
        ++ detect_dependency_bottlenecks rows m
        ++ detect_critical_path_bottlenecks rows m
        ++ detect_circular_dependencies g rows)

/-- The per-member emission of `_detect_circular_dependencies`: the
bottleneck built for one cycle member, given the listed cycle. -/
def circEmit (rows : List TaskRecord) (cycle : List String)
    (task_id : String) : Option Bottleneck :=
  match taskLookup rows task_id with
  | none => none
  | some task =>
    some { task_id := task_id
           title := task.title
           owner := task.owner
           btype := "circular_dependency"
           score := 4 / 5
           reason := "Task is part of circular dependency chain: "
             ++ String.intercalate " -> " cycle
           details := { cycle := cycle } }

/-- Models `BottleneckDetector._detect_circular_dependencies` with the
iteration order of `list(component)` made explicit: the source joins a
Python SET whose iteration order is unspecified, so `enum` stands for the
order in which that set is enumerated - any permutation of the members
(hypotheses on `enum` are stated at the theorems). -/
def detect_circular_dependencies_enum (enum : List String → List String)
    (g : DiGraph) (rows : List TaskRecord) : List Bottleneck :=
  let circular_deps :=
    ((stronglyConnectedComponents g).filter (fun c => 1 < c.length)).map enum
  circular_deps.flatMap (fun cycle => cycle.filterMap (circEmit rows cycle))

/-- Models `BottleneckDetector.detect_bottlenecks` with the set-iteration
order of the circular-dependency components kept abstract. -/
def detect_bottlenecks_enum (enum : List String → List String) (g : DiGraph)
    (rows : List TaskRecord) (m : Metrics) (_settings : Settings) :
    List Bottleneck :=
  if g.nodes.length = 0 then []
  else
    sortByKeyDescQ (fun b => b.score)
      (detect_centrality_bottlenecks rows m
        ++ detect_owner_overload_bottlenecks rows m
        ++ detect_aging_bottlenecks m
        ++ detect_dependency_bottlenecks rows m
        ++ detect_critical_path_bottlenecks rows m
        ++ detect_circular_dependencies_enum enum g rows)

/-- A risk entry produced by the forecaster. -/
structure RiskEntry where
  task_id : String
  title : String
  owner : String
  status : String
  risk_score : ℚ
  risk_level : String
  reasons : List String
  due_date : Option Int
  priority : String
  effort : Int
  deriving Repr, DecidableEq

/-- Models `RiskForecaster._calculate_dependency_depth_risk`.  The blocked-
dependency counter counts ancestors whose status is `blocked` or `todo`
(the source tests `status in ['blocked', 'todo']`). -/
def calculate_dependency_depth_risk (task_id : String) (g : DiGraph)
    (rows : List TaskRecord) : ℚ :=
  let preds := ancestors g task_id
  let depth := preds.length
  let blocked_deps : Nat := preds.foldl
    (fun acc dep =>
      match taskLookup rows dep with
      | some dep_task =>
        if dep_task.status = "blocked" ∨ dep_task.status = "todo" then acc + 1
        else acc
      | none => acc)
    0
  let depth_risk := min ((depth : ℚ) / 5) 1
  let blocked_penalty := min ((blocked_deps : ℚ) / (max depth 1 : Nat)) 1
  min (depth_risk + blocked_penalty * (1 / 2)) 1

/-- Models `RiskForecaster._calculate_owner_overload_risk`. -/
def calculate_owner_overload_risk (task : TaskRecord) (m : Metrics) : ℚ :=
  let load_scores := m.load_scores
  let owner_load_score := (lookupAssoc load_scores task.owner).getD 0
  let owner_stat := (lookupAssoc m.owner_stats task.owner).getD {}
  let max_load := if load_scores = [] then 1
    else listMaxQ (load_scores.map (fun p => p.2))
  let load_risk := if 0 < max_load then owner_load_score / max_load else 0
  let overload_penalty : ℚ :=
    (if 3 < owner_stat.in_progress then 1 / 5 else 0)
    + (if 1 < owner_stat.blocked then 3 / 10 else 0)
    + (if 2 < owner_stat.high_priority then 1 / 5 else 0)
  min (load_risk + overload_penalty) 1

/-- Models `RiskForecaster._calculate_blocker_risk`. -/
def calculate_blocker_risk (task : TaskRecord) (g : DiGraph)
    (rows : List TaskRecord) : ℚ :=
  if task.status = "blocked" then 1
  else
    let preds := predecessors g task.task_id
    let blocked_dependencies : Nat := preds.foldl
      (fun acc dep =>
        match taskLookup rows dep with
        | some dep_task => if dep_task.status = "blocked" then acc + 1 else acc
        | none => acc)
      0
    if preds ≠ [] then (blocked_dependencies : ℚ) / (preds.length : ℚ) else 0

/-- Models `RiskForecaster._calculate_deadline_pressure_risk`: staircase on days
until due; 0 for an absent or unparseable date. -/
def calculate_deadline_pressure_risk (task : TaskRecord) (today : Int) : ℚ :=
  match task.due_date with
  | none => 0
  | some d =>
    let days_until_due := d - today
    if days_until_due < 0 then 1
    else if days_until_due ≤ 3 then 9 / 10
    else if days_until_due ≤ 7 then 7 / 10
    else if days_until_due ≤ 14 then 2 / 5
    else 1 / 10

/-- Models `RiskForecaster._calculate_effort_complexity_risk`. -/
def calculate_effort_complexity_risk (task : TaskRecord) : ℚ :=
  let effort_risk := ((task.effort : ℚ) - 1) / 4
  if 4 ≤ task.effort then min (effort_risk + 1 / 5) 1 else effort_risk

/-- Models `RiskForecaster._calculate_historical_pattern_risk`. -/
def calculate_historical_pattern_risk (task : TaskRecord) (m : Metrics) : ℚ :=
  if m.aging_tasks.any (fun a => a.task_id = task.task_id) then 4 / 5
  else
    let owner_stat := (lookupAssoc m.owner_stats task.owner).getD {}
    if 0 < owner_stat.overdue then 3 / 5
    else if 1 < owner_stat.blocked then 2 / 5
    else 0

/-- Models `RiskForecaster._calculate_risk_score`: weighted average of the six
factors (weights sum to 1), priority multiplier, capped at 1. -/
def calculate_risk_score (task : TaskRecord) (g : DiGraph)
    (rows : List TaskRecord) (m : Metrics) (today : Int) : ℚ :=
  let factors : List (ℚ × ℚ) :=
    [(calculate_dependency_depth_risk task.task_id g rows, 1 / 4),
     (calculate_owner_overload_risk task m, 1 / 5),
     (calculate_blocker_risk task g rows, 1 / 5),
     (calculate_deadline_pressure_risk task today, 3 / 20),
     (calculate_effort_complexity_risk task, 1 / 10),
     (calculate_historical_pattern_risk task m, 1 / 10)]
  let total_score : ℚ := (factors.map (fun p => p.1 * p.2)).foldl (· + ·) 0
  let total_weight : ℚ := (factors.map (fun p => p.2)).foldl (· + ·) 0
  let final_score := if 0 < total_weight then total_score / total_weight else 0
  min (final_score * priority_weight task.priority) 1

/-- Models `RiskForecaster._identify_risk_factors`: the human-readable reasons,
re-checked from the raw conditions in the fixed source order. -/
def identify_risk_factors (task : TaskRecord) (g : DiGraph)
    (rows : List TaskRecord) (m : Metrics) (today : Int) : List String :=
  let preds := ancestors g task.task_id
  let blocked_deps := preds.filter (fun dep =>
    match taskLookup rows dep with
    | some dep_task => dep_task.status = "blocked"
    | none => false)
  let owner_load_score := (lookupAssoc m.load_scores task.owner).getD 0
  let owner_stat := (lookupAssoc m.owner_stats task.owner).getD {}
  let part1 :=
    (if 3 < preds.length then
      ["Deep dependency chain (" ++ toString preds.length ++ " dependencies)"]
     else [])
    ++ (if blocked_deps ≠ [] then
      ["Blocked dependencies (" ++ toString blocked_deps.length ++ " tasks)"]
     else [])
    ++ (if 5 < owner_load_score then
      ["Owner overload (load score: " ++ ratFixed owner_load_score 1 ++ ")"]
     else [])
    ++ (if 3 < owner_stat.in_progress then
      ["Owner has " ++ toString owner_stat.in_progress ++ " tasks in progress"]
     else [])
    ++ (if 0 < owner_stat.blocked then
      ["Owner has " ++ toString owner_stat.blocked ++ " blocked tasks"]
     else [])
  let deadline :=
    match task.due_date with
    | none => []
    | some d =>
      let days_until_due := d - today
      if days_until_due < 0 then
        ["Overdue by " ++ toString days_until_due.natAbs ++ " days"]
      else if days_until_due ≤ 3 then
        ["Due in " ++ toString days_until_due ++ " days"]
      else []
  let part2 :=
    (if 4 ≤ task.effort then
      ["High effort task (" ++ toString task.effort ++ "/5)"]
     else [])
    ++ (match m.aging_tasks.find? (fun a => a.task_id = task.task_id) with
      | some a =>
        ["Task aging (" ++ toString a.days_in_progress ++ " days in progress)"]
      | none => [])
  part1 ++ deadline ++ part2

/-- Models `RiskForecaster._categorize_risk_level`. -/
def categorize_risk_level (risk_score : ℚ) : String :=
  if 4 / 5 ≤ risk_score then "Critical"
  else if 3 / 5 ≤ risk_score then "High"
  else if 2 / 5 ≤ risk_score then "Medium"
  else if 1 / 5 ≤ risk_score then "Low"
  else "Minimal"

/-- Stable descending sort of risk entries by score. -/
def sortRisksDesc (l : List RiskEntry) : List RiskEntry :=
  sortByKeyDescQ (fun r => r.risk_score) l

/-- Models `RiskForecaster.forecast_risks`: skip `done` tasks, keep scores above
0.3, sort descending by risk score. -/
def forecast_risks (g : DiGraph) (rows : List TaskRecord) (m : Metrics)
    (_settings : Settings) (today : Int) : List RiskEntry :=
  if g.nodes.length = 0 ∨ rows = [] then []
  else
    sortRisksDesc (rows.filterMap (fun row =>
      if row.status = "done" then none
      else
        let risk_score := calculate_risk_score row g rows m today
        if 3 / 10 < risk_score then
          some { task_id := row.task_id
                 title := row.title
                 owner := row.owner
                 status := row.status
                 risk_score := risk_score
                 risk_level := categorize_risk_level risk_score
                 reasons := identify_risk_factors row g rows m today
                 due_date := row.due_date
                 priority := row.priority
                 effort := row.effort }
        else none))

/-- One remediation action. -/
structure Recommendation where
  title : String
  rationale : String
  expected_effect : String
  rtype : String
  priority : String
  deriving Repr, DecidableEq

/-- A recommendation group, one per bottleneck. -/
structure RecommendationGroup where
  task_id : String
  title : String
  owner : String
  bottleneck_type : String
  bottleneck_score : ℚ
  recommendations : List Recommendation
  deriving Repr, DecidableEq

/-- The optional free-text generator: an explicit capability, mirroring
`_generate_llm_recommendations` (which returns `[]` whenever the engine is
unavailable or fails - modelled by `fun _ _ => []`).  It receives the
bottleneck and the (possibly absent) task record. -/
def Generator : Type := Bottleneck → Option TaskRecord → List Recommendation

/-- Models `task.get(field, default)` on the possibly-empty task dict. -/
def taskField (task : Option TaskRecord) (f : TaskRecord → String)
    (default : String) : String :=
  match task with
  | some t => f t
  | none => default

/-- Models `task.get('effort', 3)` on the possibly-empty task dict. -/
def taskEffort (task : Option TaskRecord) : Int :=
  match task with
  | some t => t.effort
  | none => 3

/-- Models `RecommendationEngine._get_owner_overload_recommendations`. -/
def get_owner_overload_recommendations (task : Option TaskRecord)
    (_rows : List TaskRecord) (m : Metrics) : List Recommendation :=
  let task_owner := taskField task (fun t => t.owner) "Unknown"
  let load_scores := m.load_scores
  let current_load := (lookupAssoc load_scores task_owner).getD 0
  let available_owners := load_scores.filter
    (fun p => p.2 < current_load * (7 / 10))
  let reassign :=
    match available_owners with
    | [] => []
    | o :: os =>
      let best_owner := (o :: os).foldl (fun b p => if p.2 < b.2 then p else b) o
      [{ title := "Reassign to " ++ best_owner.1
         rationale := "Owner " ++ best_owner.1 ++ " has lower workload ("
           ++ ratFixed best_owner.2 2 ++ " vs " ++ ratFixed current_load 2 ++ ")"
         expected_effect := "Reduces overload and balances workload"
         rtype := "reassign"
         priority := "high" }]
  let split :=
    if 4 ≤ taskEffort task then
      [{ title := "Split task into subtasks"
         rationale := "High effort task (" ++ toString (taskEffort task)
           ++ "/5) can be broken down"
         expected_effect := "Reduces individual task complexity"
         rtype := "split_task"
         priority := "medium" }]
    else []
  let escalate :=
    if taskField task (fun t => t.priority) "" = "high" then
      [{ title := "Escalate to management"
         rationale := "High priority task needs management attention"
         expected_effect := "Ensures proper resource allocation"
         rtype := "escalate"
         priority := "high" }]
    else []
  reassign ++ split ++ escalate

/-- Models `RecommendationEngine._get_aging_task_recommendations`. -/
def get_aging_task_recommendations (task : Option TaskRecord)
    (bottleneck : Bottleneck) (rows : List TaskRecord) : List Recommendation :=
  let blocked :=
    if taskField task (fun t => t.status) "" = "blocked" then
      [{ title := "Identify and resolve blockers"
         rationale := "Task is blocked and needs unblocking"
         expected_effect := "Removes impediments to progress"
         rtype := "escalate"
         priority := "high" }]
    else []
  let task_owner := taskField task (fun t => t.owner) "Unknown"
  let owner_task_count := (rows.filter (fun r => r.owner = task_owner)).length
  let reassign :=
    if 5 < owner_task_count then
      [{ title := "Reassign to less busy owner"
         rationale := "Owner has " ++ toString owner_task_count
           ++ " tasks, may be overloaded"
         expected_effect := "Reduces individual owner workload"
         rtype := "reassign"
         priority := "medium" }]
    else []
  let renegotiate :=
    [{ title := "Renegotiate deadline"
       rationale := "Task has been in progress for "
         ++ toString bottleneck.details.days_in_progress ++ " days"
       expected_effect := "Sets realistic expectations"
       rtype := "renegotiate_deadline"
       priority := "medium" }]
  blocked ++ reassign ++ renegotiate

/-- Models `RecommendationEngine._get_dependency_recommendations`. -/
def get_dependency_recommendations (bottleneck : Bottleneck) :
    List Recommendation :=
  let fan_in_count := bottleneck.details.fan_in_count
  let breakdown :=
    if 3 < fan_in_count then
      [{ title := "Break down dependencies"
         rationale := "Task has " ++ toString fan_in_count
           ++ " dependencies, creating chokepoint"
         expected_effect := "Reduces dependency complexity"
         rtype := "remove_dependencies"
         priority := "high" }]
    else []
  breakdown
    ++ [{ title := "Increase priority"
          rationale := "Critical chokepoint task should be prioritized"
          expected_effect := "Ensures timely completion of critical path"
          rtype := "prioritize"
          priority := "high" }]

/-- Models `RecommendationEngine._get_critical_path_recommendations`. -/
def get_critical_path_recommendations : List Recommendation :=
  [{ title := "Allocate dedicated resources"
     rationale := "Critical path task needs dedicated attention"
     expected_effect := "Ensures timely completion of critical path"
     rtype := "add_resources"
     priority := "high" },
   { title := "Implement daily check-ins"
     rationale := "Critical path requires close monitoring"
     expected_effect := "Early detection of issues"
     rtype := "escalate"
     priority := "medium" }]

/-- Models `RecommendationEngine._get_circular_dependency_recommendations`. -/
def get_circular_dependency_recommendations (bottleneck : Bottleneck) :
    List Recommendation :=
  let cycle := bottleneck.details.cycle
  [{ title := "Break circular dependency"
     rationale := "Task is part of circular dependency: "
       ++ String.intercalate " -> " cycle
     expected_effect := "Eliminates blocking circular dependency"
     rtype := "remove_dependencies"
     priority := "high" },
   { title := "Redesign workflow"
     rationale := "Circular dependencies indicate workflow design issues"
     expected_effect := "Creates more efficient workflow"
     rtype := "escalate"
     priority := "high" }]

/-- Models `RecommendationEngine._generate_rule_based_recommendations`, dispatch
on the bottleneck type. -/
def generate_rule_based_recommendations (bottleneck : Bottleneck)
    (task : Option TaskRecord) (rows : List TaskRecord) (m : Metrics) :
    List Recommendation :=
  if bottleneck.btype = "overloaded_owner" then
    get_owner_overload_recommendations task rows m
  else if bottleneck.btype = "aging_task" then
    get_aging_task_recommendations task bottleneck rows
  else if bottleneck.btype = "dependency_chokepoint" then
    get_dependency_recommendations bottleneck
  else if bottleneck.btype = "critical_path" then
    get_critical_path_recommendations
  else if bottleneck.btype = "circular_dependency" then
    get_circular_dependency_recommendations bottleneck
  else []

/-- The deduplication key: the pair (title, type). -/
def recKey (r : Recommendation) : String × String := (r.title, r.rtype)

/-- Models `RecommendationEngine._deduplicate_recommendations`: keep the first
occurrence of each (title, type) key.  `seen` is the set of keys already
taken. -/
def deduplicateAux (seen : List (String × String)) :
    List Recommendation → List Recommendation
  | [] => []
  | r :: rest =>
    if recKey r ∈ seen then deduplicateAux seen rest
    else r :: deduplicateAux (recKey r :: seen) rest

/-- Models `RecommendationEngine._deduplicate_recommendations`. -/
def deduplicate_recommendations (recs : List Recommendation) :
    List Recommendation :=
  deduplicateAux [] recs

/-- Models `RecommendationEngine.generate_recommendations`: one group per
bottleneck; the generator output is concatenated BEFORE the rule-based
candidates (`all_recommendations = llm_recommendations +
rule_recommendations` in the source), deduplicated by (title, type)
keeping the first occurrence, and truncated to 3. -/
def generate_recommendations (gen : Generator) (bottlenecks : List Bottleneck)
    (_g : DiGraph) (rows : List TaskRecord) (m : Metrics) :
    List RecommendationGroup :=
  if bottlenecks = [] then []
  else
    bottlenecks.map (fun bottleneck =>
      let task := taskLookup rows bottleneck.task_id
      let llm_recommendations := gen bottleneck task
      let rule_recommendations :=
        generate_rule_based_recommendations bottleneck task rows m
      let all_recommendations := llm_recommendations ++ rule_recommendations
      let unique_recommendations :=
        deduplicate_recommendations all_recommendations
      { task_id := bottleneck.task_id
        title := taskField task (fun t => t.title) "Unknown Task"
        owner := taskField task (fun t => t.owner) "Unknown"
        bottleneck_type := bottleneck.btype
        bottleneck_score := bottleneck.score
        recommendations := unique_recommendations.take 3 })

/-! ### Concrete inputs for the scenario claims.
All scenarios use the default settings and `today = 0`. -/

/-- A single task with no dependencies (one-node graph, all betweenness
values 0). -/
def rowsSingle : List TaskRecord :=
  [{ task_id := "t1", title := "Task 1", owner := "alice", status := "todo",
     priority := "med", effort := 3 }]

/-- Scenario A with every unspecified attribute at its default: five
`todo` tasks, four owned by bob, priority `med`, effort 3, no dates. -/
def rowsA : List TaskRecord :=
  [{ task_id := "a1", title := "Task A1", owner := "alice", status := "todo",
     priority := "med", effort := 3 },
   { task_id := "b1", title := "Task B1", owner := "bob", status := "todo",
     priority := "med", effort := 3 },
   { task_id := "b2", title := "Task B2", owner := "bob", status := "todo",
     priority := "med", effort := 3 },
   { task_id := "b3", title := "Task B3", owner := "bob", status := "todo",
     priority := "med", effort := 3 },
   { task_id := "b4", title := "Task B4", owner := "bob", status := "todo",
     priority := "med", effort := 3 }]

/-- Scenario A with load-bearing attributes: the same five `todo` tasks
but all `high` priority, so the owners accumulate non-zero load. -/
def rowsA2 : List TaskRecord :=
  [{ task_id := "a1", title := "Task A1", owner := "alice", status := "todo",
     priority := "high", effort := 3 },
   { task_id := "b1", title := "Task B1", owner := "bob", status := "todo",
     priority := "high", effort := 3 },
   { task_id := "b2", title := "Task B2", owner := "bob", status := "todo",
     priority := "high", effort := 3 },
   { task_id := "b3", title := "Task B3", owner := "bob", status := "todo",
     priority := "high", effort := 3 },
   { task_id := "b4", title := "Task B4", owner := "bob", status := "todo",
     priority := "high", effort := 3 }]

/-- Scenario C: three tasks whose only dependency edges form the cycle
A -> B -> C -> A. -/
def rowsC : List TaskRecord :=
  [{ task_id := "A", title := "Task A", owner := "alice", status := "todo",
     priority := "med", effort := 3, dependency_ids := ["C"] },
   { task_id := "B", title := "Task B", owner := "bob", status := "todo",
     priority := "med", effort := 3, dependency_ids := ["A"] },
   { task_id := "C", title := "Task C", owner := "carol", status := "todo",
     priority := "med", effort := 3, dependency_ids := ["B"] }]

/-- Scenario E: a single in-progress task with effort 5, high priority,
started 10 days ago (so 10 days in progress, the population maximum). -/
def rowsE : List TaskRecord :=
  [{ task_id := "E1", title := "Task E", owner := "eve",
     status := "in_progress", priority := "high", effort := 5,
     start_date := some (-10) }]

/-- For C5: task D2 (in progress) depends on D1, whose status is `todo`
(not `blocked`). -/
def rowsD : List TaskRecord :=
  [{ task_id := "D1", title := "Task D1", owner := "dan", status := "todo",
     priority := "med", effort := 3 },
   { task_id := "D2", title := "Task D2", owner := "dan",
     status := "in_progress", priority := "med", effort := 3,
     dependency_ids := ["D1"] }]

/-- For the C3 witness: a blocked, overdue, high-priority, effort-5 task. -/
def rowsX : List TaskRecord :=
  [{ task_id := "X", title := "Task X", owner := "alice", status := "blocked",
     priority := "high", effort := 5, due_date := some (-1) }]

/-- The graph and metrics of a task set under default settings at
`today = 0`. -/
def graphOf (rows : List TaskRecord) : DiGraph := build_graph rows

/-- Metrics under default settings at `today = 0`. -/
def metricsOf (rows : List TaskRecord) : Metrics :=
  compute_metrics (build_graph rows) rows {} 0

/-- Full detector run under default settings at `today = 0`. -/
def detectOf (rows : List TaskRecord) : List Bottleneck :=
  detect_bottlenecks (build_graph rows) rows (metricsOf rows) {}

/-- Full forecaster run under default settings at `today = 0`. -/
def forecastOf (rows : List TaskRecord) : List RiskEntry :=
  forecast_risks (build_graph rows) rows (metricsOf rows) {} 0

/-- The dependency-depth factor as the claim words it (C5): the blocked
counter counts exactly the ancestors whose status is `blocked`.  This is
the spec reading, to be compared against
`calculate_dependency_depth_risk` which follows the source. -/
def dependency_depth_risk_claim (task_id : String) (g : DiGraph)
    (rows : List TaskRecord) : ℚ :=
  let preds := ancestors g task_id
  let depth := preds.length
  let blocked : Nat := (preds.filter (fun dep =>
    match taskLookup rows dep with
    | some dep_task => dep_task.status = "blocked"
    | none => false)).length
  min (min ((depth : ℚ) / 5) 1
    + (1 / 2) * min ((blocked : ℚ) / ((max depth 1 : Nat) : ℚ)) 1) 1

/-- The aging-task entry Scenario E produces. -/
def agingE : AgingTask :=
  { task_id := "E1", title := "Task E", owner := "eve",
    days_in_progress := 10, priority := "high", effort := 5 }

/-- The task record of D2 in `rowsD`. -/
def taskD2 : TaskRecord :=
  { task_id := "D2", title := "Task D2", owner := "dan",
    status := "in_progress", priority := "med", effort := 3,
    dependency_ids := ["D1"] }

/-- An inert generator (the free-text engine absent or failing). -/
def genNone : Generator := fun _ _ => []

/-- A generator proposing a candidate whose (title, type) pair collides
with the first rule-based critical-path candidate but whose rationale
differs. -/
def genDup : Generator := fun _ _ =>
  [{ title := "Allocate dedicated resources"
     rationale := "Generated duplicate"
     expected_effect := "Generated effect"
     rtype := "add_resources"
     priority := "medium" }]

/-- A critical-path bottleneck used to exercise the merge policy. -/
def bCP : Bottleneck :=
  { task_id := "Z", title := "Task Z", owner := "zoe",
    btype := "critical_path", score := 1 / 2, reason := "on critical path" }

/-- A bottleneck whose task id occurs in no task row. -/
def bGhost : Bottleneck :=
  { task_id := "ghost", title := "", owner := "",
    btype := "critical_path", score := 1 / 2, reason := "" }

/-- The risk entry the forecaster produces for `rowsX` (blocked, overdue,
high-priority, effort-5 task, maximal risk). -/
def riskX : RiskEntry :=
  { task_id := "X", title := "Task X", owner := "alice", status := "blocked",
    risk_score := 1, risk_level := "Critical",
    reasons := ["Owner overload (load score: 6.2)", "Owner has 1 blocked tasks",
                "Overdue by 1 days", "High effort task (5/5)"],
    due_date := some (-1), priority := "high", effort := 5 }

/-- The circular-dependency bottleneck emitted for task A of Scenario C. -/
def circA : Bottleneck :=
  { task_id := "A", title := "Task A", owner := "alice",
    btype := "circular_dependency", score := 4 / 5,
    reason := "Task is part of circular dependency chain: A -> B -> C",
    details := { cycle := ["A", "B", "C"] } }

/-! ### Helper lemmas -/

theorem sortByKeyDescQ_sorted {α : Type} (key : α → ℚ) (l : List α) :
    (sortByKeyDescQ key l).Pairwise (fun a b => key b ≤ key a) := by
  haveI : IsTotal α (fun a b => key b ≤ key a) :=
    ⟨fun a b => le_total (key b) (key a)⟩
  haveI : IsTrans α (fun a b => key b ≤ key a) :=
    ⟨fun _ _ _ hab hbc => le_trans hbc hab⟩
  exact List.sorted_insertionSort _ l

theorem mem_sortByKeyDescQ {α : Type} (key : α → ℚ) (l : List α) (a : α) :
    a ∈ sortByKeyDescQ key l ↔ a ∈ l :=
  (List.perm_insertionSort _ l).mem_iff

theorem mem_of_getLastOpt {α : Type} {l : List α} {a : α}
    (h : l.getLast? = some a) : a ∈ l := by
  induction l with
  | nil => simp at h
  | cons x xs ih =>
    cases xs with
    | nil => simp [List.getLast?] at h; simp [h]
    | cons y ys =>
      rw [List.getLast?_cons_cons] at h
      exact List.mem_cons_of_mem x (ih h)

theorem taskLookup_some_mem {rows : List TaskRecord} {tid : String}
    {t : TaskRecord} (h : taskLookup rows tid = some t) :
    t ∈ rows ∧ t.task_id = tid := by
  have hm := mem_of_getLastOpt h
  have hf := List.mem_filter.1 hm
  exact ⟨hf.1, by simpa using hf.2⟩

theorem taskLookup_some_id_mem {rows : List TaskRecord} {tid : String}
    {t : TaskRecord} (h : taskLookup rows tid = some t) :
    tid ∈ rows.map (fun r => r.task_id) := by
  obtain ⟨hm, hid⟩ := taskLookup_some_mem h
  rw [← hid]
  exact List.mem_map_of_mem _ hm

theorem taskLookup_isSome_of_mem {rows : List TaskRecord} {tid : String}
    (h : tid ∈ rows.map (fun r => r.task_id)) :
    ∃ t, taskLookup rows tid = some t := by
  obtain ⟨r, hr, hid⟩ := List.mem_map.1 h
  have hmem : r ∈ rows.filter (fun x => x.task_id = tid) :=
    List.mem_filter.2 ⟨hr, by simp [hid]⟩
  have hne : rows.filter (fun x => x.task_id = tid) ≠ [] :=
    List.ne_nil_of_mem hmem
  rcases hlast : (rows.filter (fun x => x.task_id = tid)).getLast? with _ | t
  · exact absurd (List.getLast?_eq_none_iff.1 hlast) hne
  · exact ⟨t, hlast⟩

theorem mem_of_mem_firstOccurrences {x : String} :
    ∀ (seen l : List String), x ∈ firstOccurrences seen l → x ∈ l := by
  intro seen l
  induction l generalizing seen with
  | nil => simp [firstOccurrences]
  | cons a t ih =>
    intro h
    unfold firstOccurrences at h
    split at h
    · exact List.mem_cons_of_mem _ (ih _ h)
    · rcases List.mem_cons.1 h with rfl | h2
      · exact List.mem_cons_self _ _
      · exact List.mem_cons_of_mem _ (ih _ h2)

theorem mem_firstOccurrences_of_mem {x : String} :
    ∀ (seen l : List String), x ∈ l → x ∉ seen → x ∈ firstOccurrences seen l := by
  intro seen l
  induction l generalizing seen with
  | nil => simp
  | cons a t ih =>
    intro h hs
    unfold firstOccurrences
    rcases List.mem_cons.1 h with rfl | h2
    · rw [if_neg hs]
      exact List.mem_cons_self _ _
    · split
      · exact ih _ h2 hs
      · by_cases hxa : x = a
        · exact hxa ▸ List.mem_cons_self _ _
        · exact List.mem_cons_of_mem _
            (ih _ h2 (by simp [hxa, hs]))

theorem build_graph_nodes (rows : List TaskRecord) :
    (build_graph rows).nodes = firstOccurrences [] (rows.map (fun r => r.task_id)) :=
  rfl

theorem node_mem_map_id {rows : List TaskRecord} {tid : String}
    (h : tid ∈ (build_graph rows).nodes) : tid ∈ rows.map (fun r => r.task_id) :=
  mem_of_mem_firstOccurrences _ _ (build_graph_nodes rows ▸ h)

theorem map_id_mem_node {rows : List TaskRecord} {tid : String}
    (h : tid ∈ rows.map (fun r => r.task_id)) : tid ∈ (build_graph rows).nodes := by
  rw [build_graph_nodes]
  exact mem_firstOccurrences_of_mem _ _ h (by simp)

theorem mem_taskLookupValues {rows : List TaskRecord} {t : TaskRecord}
    (h : t ∈ taskLookupValues rows) : t ∈ rows := by
  obtain ⟨tid, _, hlk⟩ := List.mem_filterMap.1 h
  exact (taskLookup_some_mem hlk).1

theorem agingTask_id_mem {rows : List TaskRecord} {s : Settings} {today : Int}
    {a : AgingTask} (h : a ∈ computeAgingTasks rows s today) :
    a.task_id ∈ rows.map (fun r => r.task_id) := by
  obtain ⟨row, hrow, hf⟩ := List.mem_filterMap.1 h
  rcases hsd : row.start_date with _ | sd
  · rw [hsd] at hf; simp at hf
  · rw [hsd] at hf
    simp only at hf
    split at hf
    · split at hf
      · cases hf
        exact List.mem_map_of_mem _ hrow
      · simp at hf
    · simp at hf

theorem foldl_max_zero (xs : List ℚ) (h : ∀ y ∈ xs, y = 0) :
    xs.foldl max (0 : ℚ) = 0 := by
  induction xs with
  | nil => rfl
  | cons y ys ih =>
    have hy := h y (List.mem_cons_self _ _)
    rw [List.foldl_cons, hy, max_self]
    exact ih (fun z hz => h z (List.mem_cons_of_mem _ hz))

theorem listMaxQ_eq_zero {l : List ℚ} (h : ∀ x ∈ l, x = 0) : listMaxQ l = 0 := by
  cases l with
  | nil => rfl
  | cons x xs =>
    have hx := h x (List.mem_cons_self _ _)
    show xs.foldl max x = 0
    rw [hx]
    exact foldl_max_zero xs (fun z hz => h z (List.mem_cons_of_mem _ hz))

theorem ite_some_eq {β : Type} {c : Prop} [Decidable c] {r b : β}
    (h : (if c then some r else none) = some b) : b = r ∧ c := by
  by_cases hc : c
  · rw [if_pos hc] at h
    exact ⟨(Option.some.inj h).symm, hc⟩
  · rw [if_neg hc] at h
    cases h

theorem mem_detect_centrality {rows : List TaskRecord} {m : Metrics}
    {b : Bottleneck} (h : b ∈ detect_centrality_bottlenecks rows m) :
    b.btype = "high_betweenness" ∧ b.task_id ∈ rows.map (fun r => r.task_id) := by
  unfold detect_centrality_bottlenecks at h
  dsimp only at h
  split at h
  · simp at h
  · obtain ⟨p, hp, hf⟩ := List.mem_filterMap.1 h
    rcases hlk : taskLookup rows p.1 with _ | task
    · rw [hlk] at hf; simp at hf
    · rw [hlk] at hf
      obtain ⟨hb, -⟩ := ite_some_eq hf
      subst hb
      exact ⟨rfl, taskLookup_some_id_mem hlk⟩

theorem mem_detect_overload {rows : List TaskRecord} {m : Metrics}
    {b : Bottleneck} (h : b ∈ detect_owner_overload_bottlenecks rows m) :
    b.btype = "overloaded_owner" ∧ b.task_id ∈ rows.map (fun r => r.task_id) := by
  unfold detect_owner_overload_bottlenecks at h
  dsimp only at h
  split at h
  · simp at h
  · obtain ⟨p, hp, hmem⟩ := List.mem_flatMap.1 h
    split at hmem
    · obtain ⟨task, htask, hf⟩ := List.mem_filterMap.1 hmem
      obtain ⟨hb, -⟩ := ite_some_eq hf
      subst hb
      refine ⟨rfl, List.mem_map_of_mem _ ?_⟩
      exact mem_taskLookupValues (List.mem_filter.1 htask).1
    · simp at hmem

theorem mem_detect_aging {m : Metrics} {b : Bottleneck}
    (h : b ∈ detect_aging_bottlenecks m) :
    b.btype = "aging_task" ∧ ∃ a ∈ m.aging_tasks, b.task_id = a.task_id := by
  unfold detect_aging_bottlenecks at h
  dsimp only at h
  split at h
  · simp at h
  · obtain ⟨a, ha, hf⟩ := List.mem_map.1 h
    subst hf
    exact ⟨rfl, a, ha, rfl⟩

theorem mem_detect_dependency {rows : List TaskRecord} {m : Metrics}
    {b : Bottleneck} (h : b ∈ detect_dependency_bottlenecks rows m) :
    b.btype = "dependency_chokepoint" ∧ b.task_id ∈ rows.map (fun r => r.task_id) := by
  unfold detect_dependency_bottlenecks at h
  dsimp only at h
  split at h
  · simp at h
  · obtain ⟨p, hp, hf⟩ := List.mem_filterMap.1 h
    rcases hlk : taskLookup rows p.1 with _ | task
    · rw [hlk] at hf; simp at hf
    · rw [hlk] at hf
      obtain ⟨hb, -⟩ := ite_some_eq hf
      subst hb
      exact ⟨rfl, taskLookup_some_id_mem hlk⟩

theorem mem_detect_critical {rows : List TaskRecord} {m : Metrics}
    {b : Bottleneck} (h : b ∈ detect_critical_path_bottlenecks rows m) :
    b.btype = "critical_path" ∧ b.task_id ∈ rows.map (fun r => r.task_id) := by
  unfold detect_critical_path_bottlenecks at h
  split at h
  · simp at h
  · obtain ⟨p, hp, hf⟩ := List.mem_filterMap.1 h
    rcases hlk : taskLookup rows p.1 with _ | task
    · rw [hlk] at hf; simp at hf
    · rw [hlk] at hf
      have hb := (Option.some.inj hf).symm
      subst hb
      exact ⟨rfl, taskLookup_some_id_mem hlk⟩

theorem mem_detect_circular {g : DiGraph} {rows : List TaskRecord}
    {b : Bottleneck} (h : b ∈ detect_circular_dependencies g rows) :
    b.btype = "circular_dependency" ∧ b.task_id ∈ rows.map (fun r => r.task_id) := by
  unfold detect_circular_dependencies at h
  obtain ⟨cycle, hc, hmem⟩ := List.mem_flatMap.1 h
  obtain ⟨tid, htid, hf⟩ := List.mem_filterMap.1 hmem
  rcases hlk : taskLookup rows tid with _ | task
  · rw [hlk] at hf; simp at hf
  · rw [hlk] at hf
    have hb := (Option.some.inj hf).symm
    subst hb
    exact ⟨rfl, taskLookup_some_id_mem hlk⟩

/-! ### Claim theorems -/

/-- Claim C9: for the empty task list the pipeline degrades gracefully:
the graph is empty, the metrics bundle is the empty bundle, and the
detector, forecaster and recommendation engine all return empty
collections (every stage is a total function here, so no exception can
arise). -/
theorem C9_empty_input (settings : Settings) (today : Int) (gen : Generator) :
    build_graph [] = ⟨[], []⟩ ∧
    compute_metrics (build_graph []) [] settings today = {} ∧
    detect_bottlenecks (build_graph []) []
      (compute_metrics (build_graph []) [] settings today) settings = [] ∧
    forecast_risks (build_graph []) []
      (compute_metrics (build_graph []) [] settings today) settings today = [] ∧
    generate_recommendations gen
      (detect_bottlenecks (build_graph []) []
        (compute_metrics (build_graph []) [] settings today) settings)
      (build_graph []) []
      (compute_metrics (build_graph []) [] settings today) = [] :=
  ⟨rfl, rfl, rfl, rfl, rfl⟩

theorem mem_circEmit {rows : List TaskRecord} {cycle l : List String}
    {b : Bottleneck} (h : b ∈ l.filterMap (circEmit rows cycle)) :
    b.btype = "circular_dependency" ∧ b.score = 4 / 5 ∧
    b.reason = "Task is part of circular dependency chain: "
      ++ String.intercalate " -> " cycle := by
  obtain ⟨tid, htid, hf⟩ := List.mem_filterMap.1 h
  unfold circEmit at hf
  rcases hlk : taskLookup rows tid with _ | task
  · rw [hlk] at hf; simp at hf
  · rw [hlk] at hf
    have hb := (Option.some.inj hf).symm
    subst hb
    exact ⟨rfl, rfl, rfl⟩

theorem circEmit_map_id (rows : List TaskRecord) (cycle : List String) :
    ∀ l : List String, (∀ tid ∈ l, ∃ t, taskLookup rows tid = some t) →
      ((l.filterMap (circEmit rows cycle)).map (fun b => b.task_id)) = l := by
  intro l
  induction l with
  | nil => intro _; rfl
  | cons a t ih =>
    intro h
    obtain ⟨ta, hta⟩ := h a (List.mem_cons_self _ _)
    simp only [List.filterMap_cons, circEmit, hta, List.map_cons]
    rw [ih (fun tid htid => h tid (List.mem_cons_of_mem _ htid))]

theorem detect_circular_enum_id (g : DiGraph) (rows : List TaskRecord) :
    detect_circular_dependencies_enum id g rows
      = detect_circular_dependencies g rows := by
  unfold detect_circular_dependencies_enum detect_circular_dependencies circEmit
  rw [List.map_id]

/-- Claim C8 counterexample: the source builds the reason by joining
`list(component)` of a Python set, whose iteration order is unspecified;
under the admissible enumeration order C, B, A (a permutation of the
members), every emitted reason reads "C -> B -> A", which is none of the
three cycle-order renderings A -> B -> C, B -> C -> A, C -> A -> B - so
the program does not guarantee a reason "in cycle order". -/
theorem C8_counterexample :
    List.Perm (["A", "B", "C"].reverse) ["A", "B", "C"] ∧
    ((detect_bottlenecks_enum (fun c => c.reverse) (build_graph rowsC) rowsC
        (metricsOf rowsC) {}).filter
        (fun b => b.btype = "circular_dependency")).map (fun b => b.reason)
      = ["Task is part of circular dependency chain: C -> B -> A",
         "Task is part of circular dependency chain: C -> B -> A",
         "Task is part of circular dependency chain: C -> B -> A"] ∧
    ("Task is part of circular dependency chain: C -> B -> A"
        ≠ "Task is part of circular dependency chain: A -> B -> C" ∧
      "Task is part of circular dependency chain: C -> B -> A"
        ≠ "Task is part of circular dependency chain: B -> C -> A" ∧
      "Task is part of circular dependency chain: C -> B -> A"
        ≠ "Task is part of circular dependency chain: C -> A -> B") :=
  ⟨by decide, by with_unfolding_all decide, by decide, by decide, by decide⟩

/-- Claim C8 (amended): on the three-task cycle A -> B -> C -> A, for
EVERY admissible set-iteration order (any `enum` producing a permutation
of each component), the detector emits exactly one `circular_dependency`
bottleneck per cycle member (the emitted task ids are a permutation of
A, B, C), each with score exactly 0.8 and a reason string listing all
three task ids once each in the single enumeration order - which is not
guaranteed to be cycle order. -/
theorem C8_circular_amended (enum : List String → List String)
    (henum : ∀ l, List.Perm (enum l) l) :
    List.Perm
      (((detect_bottlenecks_enum enum (build_graph rowsC) rowsC
          (metricsOf rowsC) {}).filter
          (fun b => b.btype = "circular_dependency")).map (fun b => b.task_id))
      ["A", "B", "C"] ∧
    (∀ b ∈ (detect_bottlenecks_enum enum (build_graph rowsC) rowsC
        (metricsOf rowsC) {}).filter
        (fun b => b.btype = "circular_dependency"),
      b.score = 4 / 5 ∧
      b.reason = "Task is part of circular dependency chain: "
        ++ String.intercalate " -> " (enum ["A", "B", "C"])) ∧
    List.Perm (enum ["A", "B", "C"]) ["A", "B", "C"] := by
  have hscc : (stronglyConnectedComponents (build_graph rowsC)).filter
      (fun c => 1 < c.length) = [["A", "B", "C"]] := by
    with_unfolding_all decide
  have hids : rowsC.map (fun r => r.task_id) = ["A", "B", "C"] := by decide
  have hlkA : ∀ tid ∈ enum ["A", "B", "C"], ∃ t, taskLookup rowsC tid = some t := by
    intro tid htid
    apply taskLookup_isSome_of_mem
    rw [hids]
    exact (henum _).mem_iff.1 htid
  have hcirc : detect_circular_dependencies_enum enum (build_graph rowsC) rowsC
      = (enum ["A", "B", "C"]).filterMap
          (circEmit rowsC (enum ["A", "B", "C"])) := by
    unfold detect_circular_dependencies_enum
    rw [hscc]
    simp only [List.map_cons, List.map_nil, List.flatMap_cons, List.flatMap_nil,
      List.append_nil]
  have hne : ¬(build_graph rowsC).nodes.length = 0 := by decide
  have hperm : List.Perm
      ((detect_bottlenecks_enum enum (build_graph rowsC) rowsC
        (metricsOf rowsC) {}).filter (fun b => b.btype = "circular_dependency"))
      ((enum ["A", "B", "C"]).filterMap (circEmit rowsC (enum ["A", "B", "C"]))) := by
    unfold detect_bottlenecks_enum
    rw [if_neg hne, hcirc]
    have h1 := (List.perm_insertionSort
      (fun a b : Bottleneck => b.score ≤ a.score)
      (detect_centrality_bottlenecks rowsC (metricsOf rowsC)
        ++ detect_owner_overload_bottlenecks rowsC (metricsOf rowsC)
        ++ detect_aging_bottlenecks (metricsOf rowsC)
        ++ detect_dependency_bottlenecks rowsC (metricsOf rowsC)
        ++ detect_critical_path_bottlenecks rowsC (metricsOf rowsC)
        ++ (enum ["A", "B", "C"]).filterMap
            (circEmit rowsC (enum ["A", "B", "C"])))).filter
      (fun b => decide (b.btype = "circular_dependency"))
    refine h1.trans ?_
    rw [List.filter_append]
    have h2 : (detect_centrality_bottlenecks rowsC (metricsOf rowsC)
        ++ detect_owner_overload_bottlenecks rowsC (metricsOf rowsC)
        ++ detect_aging_bottlenecks (metricsOf rowsC)
        ++ detect_dependency_bottlenecks rowsC (metricsOf rowsC)
        ++ detect_critical_path_bottlenecks rowsC (metricsOf rowsC)).filter
        (fun b => decide (b.btype = "circular_dependency")) = [] := by
      with_unfolding_all decide
    rw [h2]
    have h3 : ((enum ["A", "B", "C"]).filterMap
        (circEmit rowsC (enum ["A", "B", "C"]))).filter
        (fun b => decide (b.btype = "circular_dependency"))
        = (enum ["A", "B", "C"]).filterMap
          (circEmit rowsC (enum ["A", "B", "C"])) :=
      List.filter_eq_self.2 (fun b hb => by simpa using (mem_circEmit hb).1)
    rw [h3]
    exact List.Perm.refl _
  refine ⟨?_, ?_, henum _⟩
  · have hmap := hperm.map (fun b => b.task_id)
    rw [circEmit_map_id rowsC _ _ hlkA] at hmap
    exact hmap.trans (henum _)
  · intro b hb
    have hbc := hperm.mem_iff.1 hb
    have hfacts := mem_circEmit hbc
    exact ⟨hfacts.2.1, hfacts.2.2⟩

/-- Witness for C8 (amended) at the reversed enumeration order. -/
theorem C8_circular_amended_witness :
    List.Perm
      (((detect_bottlenecks_enum (fun c => c.reverse) (build_graph rowsC) rowsC
          (metricsOf rowsC) {}).filter
          (fun b => b.btype = "circular_dependency")).map (fun b => b.task_id))
      ["A", "B", "C"] ∧
    (∀ b ∈ (detect_bottlenecks_enum (fun c => c.reverse) (build_graph rowsC)
        rowsC (metricsOf rowsC) {}).filter
        (fun b => b.btype = "circular_dependency"),
      b.score = 4 / 5 ∧
      b.reason = "Task is part of circular dependency chain: "
        ++ String.intercalate " -> " (["A", "B", "C"].reverse)) ∧
    List.Perm (["A", "B", "C"].reverse) ["A", "B", "C"] :=
  C8_circular_amended (fun c => c.reverse) (fun l => l.reverse_perm)

/-- Claim C7 counterexample: the Scenario A input with every unspecified
attribute at its default (all five tasks `todo`, priority `med`, effort 3,
no dates; bob owns four of the five) produces NO `overloaded_owner`
bottleneck at all - in particular none for bob - because a plain `todo`
task contributes nothing to the load score, so every owner's load is 0 and
every per-task overload score is 0, below the 0.3 emission threshold. -/
theorem C7_counterexample :
    rowsA.length = 5 ∧
    (rowsA.filter (fun r => r.owner = "bob")).length = 4 ∧
    (∀ r ∈ rowsA, r.status = "todo") ∧
    (detectOf rowsA).filter (fun b => b.btype = "overloaded_owner") = [] := by
  refine ⟨rfl, by with_unfolding_all decide, by with_unfolding_all decide, by with_unfolding_all decide⟩

/-- Claim C7 (amended): for a Scenario A input whose tasks carry
load-bearing attributes (here: all five `todo` tasks have priority `high`,
effort 3, no dates, bob owning four), the detector emits `overloaded_owner`
bottlenecks exactly for bob's four tasks and for no other owner's task. -/
theorem C7_scenarioA_amended :
    rowsA2.length = 5 ∧
    (rowsA2.filter (fun r => r.owner = "bob")).length = 4 ∧
    (∀ r ∈ rowsA2, r.status = "todo") ∧
    ((detectOf rowsA2).filter (fun b => b.btype = "overloaded_owner")).map
      (fun b => (b.task_id, b.owner)) =
      [("b1", "bob"), ("b2", "bob"), ("b3", "bob"), ("b4", "bob")] := by
  refine ⟨rfl, by with_unfolding_all decide, by with_unfolding_all decide, by with_unfolding_all decide⟩

/-- Claim C1 counterexample: a one-node graph has a non-empty betweenness
map whose values are all zero (max = 0), yet `detect_bottlenecks` emits a
`high_betweenness` bottleneck (with score 0) for that task - the threshold
0.7 × 0 = 0 is met by every value, so tasks DO qualify. -/
theorem C1_counterexample :
    (metricsOf rowsSingle).betweenness = [("t1", 0)] ∧
    (build_graph rowsSingle).nodes.length = 1 ∧
    ((detectOf rowsSingle).filter (fun b => b.btype = "high_betweenness")).map
      (fun b => (b.task_id, b.score)) = [("t1", 0)] := by
  refine ⟨by with_unfolding_all decide, rfl, by with_unfolding_all decide⟩

/-- Claim C5 counterexample: task D2 has the single ancestor D1 whose
status is `todo` (not `blocked`).  The source counts D1 as a blocked
dependency (`status in ['blocked', 'todo']`), giving 1/5 + 0.5·1 = 7/10,
while the claim's formula (counting only `blocked` ancestors) gives
1/5 + 0.5·0 = 1/5. -/
theorem C5_counterexample :
    calculate_dependency_depth_risk "D2" (graphOf rowsD) rowsD = 7 / 10 ∧
    dependency_depth_risk_claim "D2" (graphOf rowsD) rowsD = 1 / 5 ∧
    calculate_dependency_depth_risk "D2" (graphOf rowsD) rowsD ≠
      dependency_depth_risk_claim "D2" (graphOf rowsD) rowsD := by
  refine ⟨by with_unfolding_all decide, by with_unfolding_all decide, by with_unfolding_all decide⟩

/-- Claim C6: every flagged aging task is emitted as an `aging_task`
bottleneck whose score is exactly
`min(days/max_days, 1) × priority_weight × (effort/5)` with no cap applied
after the multiplication; in particular the Scenario E task (effort 5,
priority high, 10 days in progress, equal to the aging-population maximum)
receives score 1.5. -/
theorem C6_aging_score :
    (∀ (m : Metrics) (a : AgingTask), a ∈ m.aging_tasks →
      ∃ b ∈ detect_aging_bottlenecks m,
        b.task_id = a.task_id ∧
        b.score = min ((a.days_in_progress : ℚ) / ((maxAgingDays m.aging_tasks : Int) : ℚ)) 1
          * priority_weight a.priority * ((a.effort : ℚ) / 5)) ∧
    ((detectOf rowsE).filter (fun b => b.btype = "aging_task")).map (fun b => b.score)
      = [3 / 2] := by
  constructor
  · intro m a ha
    have hne : m.aging_tasks ≠ [] := List.ne_nil_of_mem ha
    unfold detect_aging_bottlenecks
    rw [if_neg hne]
    exact ⟨_, List.mem_map_of_mem _ ha, rfl, rfl⟩
  · with_unfolding_all decide

/-- Witness for C6 at the Scenario E input. -/
theorem C6_aging_score_witness :
    agingE ∈ (metricsOf rowsE).aging_tasks ∧
    ∃ b ∈ detect_aging_bottlenecks (metricsOf rowsE),
      b.task_id = agingE.task_id ∧
      b.score = min ((agingE.days_in_progress : ℚ)
          / ((maxAgingDays (metricsOf rowsE).aging_tasks : Int) : ℚ)) 1
        * priority_weight agingE.priority * ((agingE.effort : ℚ) / 5) :=
  ⟨by with_unfolding_all decide,
   C6_aging_score.1 (metricsOf rowsE) agingE (by with_unfolding_all decide)⟩

/-- Claim C10: `generate_recommendations` returns exactly one group per
input bottleneck, in input order; when the bottleneck's task id occurs in
no task row, the group is still emitted, with title "Unknown Task" and
owner "Unknown". -/
theorem C10_group_per_bottleneck (gen : Generator) (g : DiGraph)
    (rows : List TaskRecord) (m : Metrics) (bottlenecks : List Bottleneck)
    (i : Nat) :
    (generate_recommendations gen bottlenecks g rows m).length = bottlenecks.length ∧
    ((generate_recommendations gen bottlenecks g rows m)[i]?).map (fun grp => grp.task_id)
      = (bottlenecks[i]?).map (fun b => b.task_id) ∧
    (∀ b, bottlenecks[i]? = some b → taskLookup rows b.task_id = none →
      ((generate_recommendations gen bottlenecks g rows m)[i]?).map
        (fun grp => (grp.title, grp.owner)) = some ("Unknown Task", "Unknown")) := by
  unfold generate_recommendations
  split
  · next hbl =>
    subst hbl
    refine ⟨rfl, by simp, fun b hb => by simp at hb⟩
  · next hbl =>
    refine ⟨List.length_map _ _, ?_, ?_⟩
    · rw [List.getElem?_map]
      cases bottlenecks[i]? <;> rfl
    · intro b hb hlk
      rw [List.getElem?_map, hb]
      simp only [Option.map_some']
      rw [hlk]
      rfl

/-- Witness for C10: a single bottleneck whose task id matches no row. -/
theorem C10_group_per_bottleneck_witness :
    ((generate_recommendations genNone [bGhost] (build_graph []) [] {})[0]?).map
      (fun grp => (grp.title, grp.owner)) = some ("Unknown Task", "Unknown") :=
  (C10_group_per_bottleneck genNone (build_graph []) [] {} [bGhost] 0).2.2
    bGhost rfl rfl

theorem mem_deduplicateAux {seen : List (String × String)}
    {l : List Recommendation} {r : Recommendation}
    (h : r ∈ deduplicateAux seen l) : r ∈ l ∧ recKey r ∉ seen := by
  induction l generalizing seen with
  | nil => simp [deduplicateAux] at h
  | cons x xs ih =>
    unfold deduplicateAux at h
    split at h
    · obtain ⟨hmem, hk⟩ := ih h
      exact ⟨List.mem_cons_of_mem _ hmem, hk⟩
    · next hnin =>
      rcases List.mem_cons.1 h with rfl | h2
      · exact ⟨List.mem_cons_self _ _, hnin⟩
      · obtain ⟨hmem, hk⟩ := ih h2
        refine ⟨List.mem_cons_of_mem _ hmem, fun hc => ?_⟩
        exact hk (List.mem_cons_of_mem _ hc)

theorem dedup_append_cases {xs ys : List Recommendation} {r : Recommendation} :
    ∀ seen, r ∈ deduplicateAux seen (xs ++ ys) →
      r ∈ xs ∨ (r ∈ ys ∧ ∀ x ∈ xs, recKey x ≠ recKey r) := by
  induction xs with
  | nil =>
    intro seen h
    right
    obtain ⟨hm, -⟩ := mem_deduplicateAux h
    exact ⟨hm, by simp⟩
  | cons x xs ih =>
    intro seen h
    rw [List.cons_append] at h
    unfold deduplicateAux at h
    split at h
    · next hin =>
      rcases ih _ h with hx | ⟨hy, hall⟩
      · exact Or.inl (List.mem_cons_of_mem _ hx)
      · right
        refine ⟨hy, fun z hz => ?_⟩
        rcases List.mem_cons.1 hz with rfl | hz2
        · have hk := (mem_deduplicateAux h).2
          intro he
          exact hk (by rw [← he]; exact hin)
        · exact hall z hz2
    · next hnin =>
      rcases List.mem_cons.1 h with rfl | h2
      · exact Or.inl (List.mem_cons_self _ _)
      · rcases ih _ h2 with hx | ⟨hy, hall⟩
        · exact Or.inl (List.mem_cons_of_mem _ hx)
        · right
          refine ⟨hy, fun z hz => ?_⟩
          rcases List.mem_cons.1 hz with rfl | hz2
          · have hk := (mem_deduplicateAux h2).2
            intro he
            exact hk (by rw [← he]; exact List.mem_cons_self _ _)
          · exact hall z hz2

/-- Claim C2 (amended): for every processed bottleneck, the combined
candidate list passed to deduplication is the GENERATOR output followed by
the rule-based candidates (the source computes
`llm_recommendations + rule_recommendations`), so after deduplication by
(title, type) keeping the first occurrence and truncation to 3, a
generated candidate is kept in preference to a rule-based candidate with
the same (title, type); a rule-based candidate survives only if no
generated candidate shares its key. -/
theorem C2_merge_amended (gen : Generator) (bottlenecks : List Bottleneck)
    (g : DiGraph) (rows : List TaskRecord) (m : Metrics) (i : Nat)
    (b : Bottleneck) (hb : bottlenecks[i]? = some b) :
    ((generate_recommendations gen bottlenecks g rows m)[i]?).map
        (fun grp => grp.recommendations)
      = some ((deduplicate_recommendations
          (gen b (taskLookup rows b.task_id)
            ++ generate_rule_based_recommendations b
                (taskLookup rows b.task_id) rows m)).take 3) ∧
    ∀ r ∈ deduplicate_recommendations
        (gen b (taskLookup rows b.task_id)
          ++ generate_rule_based_recommendations b
              (taskLookup rows b.task_id) rows m),
      r ∈ gen b (taskLookup rows b.task_id) ∨
        (r ∈ generate_rule_based_recommendations b
            (taskLookup rows b.task_id) rows m ∧
          ∀ x ∈ gen b (taskLookup rows b.task_id), recKey x ≠ recKey r) := by
  constructor
  · unfold generate_recommendations
    split
    · next hbl => subst hbl; simp at hb
    · rw [List.getElem?_map, hb]
      rfl
  · intro r hr
    exact dedup_append_cases _ hr

/-- Witness for C2 (amended), applying the theorem at the colliding
generator and a critical-path bottleneck. -/
theorem C2_merge_amended_witness :
    ((generate_recommendations genDup [bCP] (build_graph []) [] {})[0]?).map
        (fun grp => grp.recommendations)
      = some ((deduplicate_recommendations
          (genDup bCP (taskLookup [] bCP.task_id)
            ++ generate_rule_based_recommendations bCP
                (taskLookup [] bCP.task_id) [] {})).take 3) :=
  (C2_merge_amended genDup [bCP] (build_graph []) [] {} 0 bCP rfl).1

/-- Claim C2 counterexample: with a generator proposing a candidate whose
(title, type) collides with the first rule-based critical-path candidate,
the emitted group keeps the GENERATED candidate (rationale "Generated
duplicate") and drops the rule-based one (rationale "Critical path task
needs dedicated attention") - the rule-based candidate is NOT kept in
preference, refuting the claimed merge order. -/
theorem C2_counterexample :
    (generate_recommendations genDup [bCP] (build_graph []) [] {}).map
        (fun grp => grp.recommendations.map (fun r => (r.title, r.rationale)))
      = [[("Allocate dedicated resources", "Generated duplicate"),
          ("Implement daily check-ins", "Critical path requires close monitoring")]] ∧
    (generate_rule_based_recommendations bCP (taskLookup [] bCP.task_id) [] {}).map
        (fun r => (r.title, r.rtype, r.rationale))
      = [("Allocate dedicated resources", "add_resources",
          "Critical path task needs dedicated attention"),
         ("Implement daily check-ins", "escalate",
          "Critical path requires close monitoring")] := by
  exact ⟨by with_unfolding_all decide, by with_unfolding_all decide⟩

/-- Claim C3: every forecast entry has status other than `done` and risk
score strictly above 0.3, and the returned list is sorted descending by
risk score. -/
theorem C3_forecast_contract (rows : List TaskRecord) (settings : Settings)
    (today : Int) (e : RiskEntry)
    (he : e ∈ forecast_risks (build_graph rows) rows
      (compute_metrics (build_graph rows) rows settings today) settings today) :
    (e.status ≠ "done" ∧ 3 / 10 < e.risk_score) ∧
    (forecast_risks (build_graph rows) rows
        (compute_metrics (build_graph rows) rows settings today) settings
        today).Pairwise
      (fun a b => b.risk_score ≤ a.risk_score) := by
  constructor
  · unfold forecast_risks at he
    split at he
    · simp at he
    · replace he := (mem_sortByKeyDescQ _ _ _).1 he
      obtain ⟨row, hrow, hf⟩ := List.mem_filterMap.1 he
      dsimp only at hf
      split at hf
      · simp at hf
      · next hdone =>
        obtain ⟨hbeq, hgt⟩ := ite_some_eq hf
        subst hbeq
        exact ⟨hdone, hgt⟩
  · unfold forecast_risks
    split
    · exact List.Pairwise.nil
    · exact sortByKeyDescQ_sorted _ _

/-- Witness for C3 at the blocked/overdue task input. -/
theorem C3_forecast_contract_witness :
    (riskX.status ≠ "done" ∧ 3 / 10 < riskX.risk_score) ∧
    (forecastOf rowsX).Pairwise (fun a b => b.risk_score ≤ a.risk_score) :=
  C3_forecast_contract rowsX {} 0 riskX (by with_unfolding_all decide)

/-- Claim C4: for every non-empty task set the detector output is sorted
descending by score, and every bottleneck's task id is the task id of some
input task. -/
theorem C4_detect_contract (rows : List TaskRecord) (settings : Settings)
    (today : Int) (_hne : rows ≠ []) (b : Bottleneck)
    (hb : b ∈ detect_bottlenecks (build_graph rows) rows
      (compute_metrics (build_graph rows) rows settings today) settings) :
    b.task_id ∈ rows.map (fun r => r.task_id) ∧
    (detect_bottlenecks (build_graph rows) rows
        (compute_metrics (build_graph rows) rows settings today)
        settings).Pairwise
      (fun x y => y.score ≤ x.score) := by
  constructor
  · unfold detect_bottlenecks at hb
    split at hb
    · simp at hb
    · replace hb := (mem_sortByKeyDescQ _ _ _).1 hb
      simp only [List.mem_append] at hb
      rcases hb with ((((h1 | h2) | h3) | h4) | h5) | h6
      · exact (mem_detect_centrality h1).2
      · exact (mem_detect_overload h2).2
      · obtain ⟨-, a, ha, hid⟩ := mem_detect_aging h3
        rw [hid]
        revert ha
        unfold compute_metrics
        split
        · intro ha
          exact absurd ha (List.not_mem_nil a)
        · intro ha
          exact agingTask_id_mem ha
      · exact (mem_detect_dependency h4).2
      · exact (mem_detect_critical h5).2
      · exact (mem_detect_circular h6).2
  · unfold detect_bottlenecks
    split
    · exact List.Pairwise.nil
    · exact sortByKeyDescQ_sorted _ _

/-- Witness for C4 at the Scenario C input. -/
theorem C4_detect_contract_witness :
    circA.task_id ∈ rowsC.map (fun r => r.task_id) ∧
    (detectOf rowsC).Pairwise (fun x y => y.score ≤ x.score) :=
  C4_detect_contract rowsC {} 0 (by simp [rowsC]) circA
    (by with_unfolding_all decide)

theorem blocked_foldl_countP (rows : List TaskRecord) (l : List String) (n : Nat) :
    l.foldl (fun acc dep =>
      match taskLookup rows dep with
      | some dep_task =>
        if dep_task.status = "blocked" ∨ dep_task.status = "todo" then acc + 1
        else acc
      | none => acc) n
    = n + l.countP (fun dep =>
      match taskLookup rows dep with
      | some dt => decide (dt.status = "blocked" ∨ dt.status = "todo")
      | none => false) := by
  induction l generalizing n with
  | nil => simp
  | cons d l ih =>
    rw [List.foldl_cons, List.countP_cons]
    rcases hlk : taskLookup rows d with _ | dt
    · dsimp only
      rw [ih]
      simp
    · dsimp only
      by_cases hs : dt.status = "blocked" ∨ dt.status = "todo"
      · rw [if_pos hs, ih, if_pos (by simp [hs])]
        omega
      · rw [if_neg hs, ih, if_neg (by simp [hs])]
        omega

/-- Claim C5 (amended): the dependency-depth factor equals
`min(ancestor_count/5, 1) + 0.5 × min(blocked_ancestor_count /
max(ancestor_count, 1), 1)`, capped at 1, where `blocked_ancestor_count`
counts exactly the ancestors whose status is `blocked` OR `todo` (the
source tests `status in ['blocked', 'todo']`, not `blocked` alone). -/
theorem C5_dependency_depth_amended (g : DiGraph) (rows : List TaskRecord)
    (t : TaskRecord) (_ht : t ∈ rows) (_hnd : t.status ≠ "done") :
    calculate_dependency_depth_risk t.task_id g rows =
      min (min (((ancestors g t.task_id).length : ℚ) / 5) 1
        + (1 / 2 : ℚ) * min ((((ancestors g t.task_id).countP (fun dep =>
              match taskLookup rows dep with
              | some dt => decide (dt.status = "blocked" ∨ dt.status = "todo")
              | none => false) : Nat) : ℚ)
            / ((max (ancestors g t.task_id).length 1 : Nat) : ℚ)) 1) 1 := by
  unfold calculate_dependency_depth_risk
  dsimp only
  rw [blocked_foldl_countP, Nat.zero_add, mul_comm]


/-- Witness for C5 (amended) at the `rowsD` input. -/
theorem C5_dependency_depth_amended_witness :
    calculate_dependency_depth_risk taskD2.task_id (graphOf rowsD) rowsD =
      min (min (((ancestors (graphOf rowsD) taskD2.task_id).length : ℚ) / 5) 1
        + (1 / 2 : ℚ) * min ((((ancestors (graphOf rowsD) taskD2.task_id).countP
              (fun dep =>
              match taskLookup rowsD dep with
              | some dt => decide (dt.status = "blocked" ∨ dt.status = "todo")
              | none => false) : Nat) : ℚ)
            / ((max (ancestors (graphOf rowsD) taskD2.task_id).length 1 : Nat) : ℚ))
            1) 1 :=
  C5_dependency_depth_amended (graphOf rowsD) rowsD taskD2
    (by with_unfolding_all decide) (by decide)

theorem detect_centrality_zero_mem (rows : List TaskRecord) (m : Metrics)
    (hz : ∀ p ∈ m.betweenness, p.2 = 0)
    (tid : String) (t : TaskRecord) (hq : (tid, (0 : ℚ)) ∈ m.betweenness)
    (hlk : taskLookup rows tid = some t) :
    ({ task_id := tid, title := t.title, owner := t.owner,
       btype := "high_betweenness", score := 0,
       reason := "High betweenness centrality (" ++ ratFixed 0 3
         ++ ") - many paths flow through this task",
       details := {} } : Bottleneck) ∈ detect_centrality_bottlenecks rows m := by
  have hbne : m.betweenness ≠ [] := List.ne_nil_of_mem hq
  have hmax : listMaxQ (m.betweenness.map (fun p => p.2)) = 0 :=
    listMaxQ_eq_zero (by
      intro x hx
      obtain ⟨p, hp, rfl⟩ := List.mem_map.1 hx
      exact hz p hp)
  unfold detect_centrality_bottlenecks
  dsimp only
  rw [if_neg hbne]
  apply List.mem_filterMap.2
  refine ⟨(tid, 0), hq, ?_⟩
  dsimp only
  rw [hlk]
  dsimp only
  rw [hmax]
  rw [if_neg (lt_irrefl (0 : ℚ))]
  rw [if_pos (show (0 : ℚ) * (7 / 10) ≤ 0 by norm_num)]

/-- Claim C1 (amended): when the betweenness values of a non-empty task
set are all zero (maximum = 0), the threshold 0.7 × 0 = 0 is met by every
value, so `detect_bottlenecks` emits a `high_betweenness` bottleneck for
EVERY node, each with score 0 (rather than emitting none). -/
theorem C1_zero_betweenness_amended (rows : List TaskRecord)
    (settings : Settings) (today : Int) (hne : rows ≠ [])
    (hz : ∀ p ∈ (compute_metrics (build_graph rows) rows settings
      today).betweenness, p.2 = 0) :
    (∀ b ∈ (detect_bottlenecks (build_graph rows) rows
        (compute_metrics (build_graph rows) rows settings today) settings).filter
        (fun b => b.btype = "high_betweenness"), b.score = 0) ∧
    (∀ tid ∈ (build_graph rows).nodes,
      ∃ b ∈ (detect_bottlenecks (build_graph rows) rows
          (compute_metrics (build_graph rows) rows settings today)
          settings).filter
          (fun b => b.btype = "high_betweenness"), b.task_id = tid) := by
  have hlen : ¬(build_graph rows).nodes.length = 0 := by
    obtain ⟨r, rs, rfl⟩ := List.exists_cons_of_ne_nil hne
    simp [build_graph_nodes, firstOccurrences]
  have hmb : (compute_metrics (build_graph rows) rows settings
      today).betweenness = betweennessMap (build_graph rows) := by
    unfold compute_metrics
    rw [if_neg hlen]
  have hmax : listMaxQ ((compute_metrics (build_graph rows) rows settings
      today).betweenness.map (fun p => p.2)) = 0 :=
    listMaxQ_eq_zero (by
      intro x hx
      obtain ⟨p, hp, rfl⟩ := List.mem_map.1 hx
      exact hz p hp)
  constructor
  · intro b hbf
    obtain ⟨hbD, hbt⟩ := List.mem_filter.1 hbf
    have hbtype : b.btype = "high_betweenness" := by simpa using hbt
    unfold detect_bottlenecks at hbD
    rw [if_neg hlen] at hbD
    replace hbD := (mem_sortByKeyDescQ _ _ _).1 hbD
    simp only [List.mem_append] at hbD
    rcases hbD with ((((h1 | h2) | h3) | h4) | h5) | h6
    · unfold detect_centrality_bottlenecks at h1
      dsimp only at h1
      split at h1
      · simp at h1
      · obtain ⟨p, hp, hf⟩ := List.mem_filterMap.1 h1
        rcases hlk : taskLookup rows p.1 with _ | task
        · rw [hlk] at hf; simp at hf
        · rw [hlk] at hf
          obtain ⟨hbe, -⟩ := ite_some_eq hf
          subst hbe
          show (if 0 < listMaxQ ((compute_metrics (build_graph rows) rows
            settings today).betweenness.map (fun p => p.2)) then _ else 0) = 0
          rw [hmax, if_neg (lt_irrefl (0 : ℚ))]
    · exact absurd ((mem_detect_overload h2).1.symm.trans hbtype) (by decide)
    · exact absurd ((mem_detect_aging h3).1.symm.trans hbtype) (by decide)
    · exact absurd ((mem_detect_dependency h4).1.symm.trans hbtype) (by decide)
    · exact absurd ((mem_detect_critical h5).1.symm.trans hbtype) (by decide)
    · exact absurd ((mem_detect_circular h6).1.symm.trans hbtype) (by decide)
  · intro tid htid
    have hidmem : tid ∈ rows.map (fun r => r.task_id) := node_mem_map_id htid
    obtain ⟨t, hlk⟩ := taskLookup_isSome_of_mem hidmem
    have hpm : (tid, betweennessValue (build_graph rows) tid) ∈
        (compute_metrics (build_graph rows) rows settings today).betweenness := by
      rw [hmb]
      exact List.mem_map_of_mem _ htid
    have hzero : betweennessValue (build_graph rows) tid = 0 := hz _ hpm
    rw [hzero] at hpm
    have hcent := detect_centrality_zero_mem rows
      (compute_metrics (build_graph rows) rows settings today) hz tid t hpm hlk
    refine ⟨{ task_id := tid, title := t.title, owner := t.owner,
              btype := "high_betweenness", score := 0,
              reason := "High betweenness centrality (" ++ ratFixed 0 3
                ++ ") - many paths flow through this task",
              details := {} }, ?_, rfl⟩
    apply List.mem_filter.2
    refine ⟨?_, by simp⟩
    unfold detect_bottlenecks
    rw [if_neg hlen]
    apply (mem_sortByKeyDescQ _ _ _).2
    exact List.mem_append_left _ (List.mem_append_left _ (List.mem_append_left _
      (List.mem_append_left _ (List.mem_append_left _ hcent))))

/-- Witness for C1 (amended) at the one-task input. -/
theorem C1_zero_betweenness_amended_witness :
    (∀ b ∈ (detectOf rowsSingle).filter (fun b => b.btype = "high_betweenness"),
      b.score = 0) ∧
    (∀ tid ∈ (build_graph rowsSingle).nodes,
      ∃ b ∈ (detectOf rowsSingle).filter (fun b => b.btype = "high_betweenness"),
        b.task_id = tid) :=
  C1_zero_betweenness_amended rowsSingle {} 0 (by simp [rowsSingle])
    (by with_unfolding_all decide)

end OpsPilot
